import Mathlib

/-!
Shallow embedding of the attendance compilation and behavioral analytics
core of an employee management dashboard (Python sources:
`app/attendance_compiler.py` and `app/analytics/attendance_intelligence.py`).

Conventions of the embedding:
* Calendar dates are day numbers (`Int`); day 0 is a Monday, so Python's
  `date.weekday()` is the day number modulo 7 and `weekday() >= 5` means
  Saturday or Sunday (the two last weekdays of the week).
* A Python `datetime` value carries a day number and a time of day;
  `.time()` projects the time of day and `.hour` projects the hour.
* Database tables are Lean lists inside a `DB` record; `query(...).first()`
  is `List.find?` on the filtered list, `query(...).all()` is `List.filter`,
  and `db.add` appends to the table (the session autoflushes, so a query
  issued later in the same run sees the pending row).
* A pandas frame is a list of column names plus a list of rows; access to a
  missing column is a `KeyError`, modelled with `Except String`.
* Numbers are exact rationals.  pandas `.std()` normalises by n - 1
  (sample standard deviation).  The `z` column assigned by the anomaly
  detector is irrational in general, so each stored z value is modelled by
  the pair (deviation from the mean, sample variance), with
  z = deviation / sqrt(variance); the test `abs(z) > 2` is the exact
  rational comparison deviation^2 > 4 * variance.
* The pandas mean of an empty selection is NaN; it is modelled as 0 here.
  No property below depends on that value.
-/

namespace EMD

/-- Time of day of a Python `datetime` (the result of `.time()`). -/
structure PyTime where
  hour : Int
  minute : Int
deriving DecidableEq

/-- A Python `datetime`: a day number plus a time of day. -/
structure PyDateTime where
  day : Int
  tod : PyTime
deriving DecidableEq

/-- Python `datetime.time()`. -/
def PyDateTime.time (t : PyDateTime) : PyTime := t.tod

/-- Python `date.weekday()`: day numbers are anchored so that day 0 is a
Monday, hence the weekday index is the day number modulo 7. -/
def pyWeekday (d : Int) : Int := d % 7

/-- Row of the `User` table. -/
structure User where
  id : Int
  employee_id : String
  name : String
  department : String
  is_active : Bool
deriving DecidableEq

/-- Row of the raw `Attendance` table. -/
structure Attendance where
  id : Int
  employee_id : String
  date : Int
  entry_time : Option PyDateTime
  duration : Option ℚ
  status : String
deriving DecidableEq

/-- Row of the derived `AttendanceDaily` table. -/
structure AttendanceDaily where
  employee_id : String
  date : Int
  status : String
  check_in_time : Option PyTime
deriving DecidableEq

/-- Row of the `LeaveRequest` table. -/
structure LeaveRequest where
  employee_id : String
  status : String
  start_date : Int
  end_date : Int
deriving DecidableEq

/-- Row of the `OfficeHoliday` table. -/
structure OfficeHoliday where
  event_date : Int
deriving DecidableEq

/-- The relational store seen by the core. -/
structure DB where
  users : List User
  attendance : List Attendance
  attendance_daily : List AttendanceDaily
  leave_requests : List LeaveRequest
  holidays : List OfficeHoliday
deriving DecidableEq

/-- Filter used by the leave query of the compiler (`attendance_compiler.py`
lines 29-34). -/
def leaveCovers (emp : String) (d : Int) (l : LeaveRequest) : Bool :=
  l.employee_id == emp && l.status == "Approved" &&
    decide (l.start_date ≤ d) && decide (d ≤ l.end_date)

/-- Filter used by the raw attendance lookup of the compiler
(`attendance_compiler.py` lines 54-57). -/
def attFor (emp : String) (d : Int) (a : Attendance) : Bool :=
  a.employee_id == emp && a.date == d

/-- The daily status resolution performed for one employee and one date
inside `compile_daily_attendance` (`attendance_compiler.py` lines 28-64). -/
def resolve_status (db : DB) (emp : String) (target_date : Int) :
    String × Option PyTime :=
  if (db.leave_requests.find? (leaveCovers emp target_date)).isSome then
    ("LEAVE", none)
  else if (db.holidays.find? (fun h => h.event_date == target_date)).isSome then
    ("HOLIDAY", none)
  else if 5 ≤ pyWeekday target_date then
    ("WEEKEND", none)
  else
    match db.attendance.find? (attFor emp target_date) with
    | some a => ("PRESENT", a.entry_time.map PyDateTime.time)
    | none => ("ABSENT", none)

/-- Filter of the `AttendanceDaily` existence check
(`attendance_compiler.py` lines 20-23). -/
def dailyFor (emp : String) (d : Int) (r : AttendanceDaily) : Bool :=
  r.employee_id == emp && r.date == d

/-- One iteration of the per-user loop of `compile_daily_attendance`
(`attendance_compiler.py` lines 17-73): skip the user if a derived row
already exists, otherwise resolve the status and add a new row. -/
def compileStep (target_date : Int) (db : DB) (u : User) : DB :=
  if (db.attendance_daily.find? (dailyFor u.employee_id target_date)).isSome then
    db
  else
    let r := resolve_status db u.employee_id target_date
    { db with attendance_daily := db.attendance_daily ++
        [ { employee_id := u.employee_id, date := target_date,
            status := r.1, check_in_time := r.2 } ] }

/-- `compile_daily_attendance` (`attendance_compiler.py` lines 11-75) for an
explicit target date: iterate the per-user step over all active users.
`db.commit()` is a no-op of the embedding. -/
def compile_daily_attendance (db : DB) (target_date : Int) : DB :=
  (db.users.filter (fun u => u.is_active)).foldl (compileStep target_date) db

/-- An `Approved` leave request of `emp` whose inclusive range contains `d`
exists in the store. -/
def HasApprovedLeave (db : DB) (emp : String) (d : Int) : Prop :=
  ∃ l ∈ db.leave_requests, l.employee_id = emp ∧ l.status = "Approved" ∧
    l.start_date ≤ d ∧ d ≤ l.end_date

/-- An office holiday on date `d` exists in the store. -/
def IsOfficeHoliday (db : DB) (d : Int) : Prop :=
  ∃ h ∈ db.holidays, h.event_date = d

instance (db : DB) (emp : String) (d : Int) :
    Decidable (HasApprovedLeave db emp d) := by
  unfold HasApprovedLeave; infer_instance

instance (db : DB) (d : Int) : Decidable (IsOfficeHoliday db d) := by
  unfold IsOfficeHoliday; infer_instance

lemma find?_isSome_iff {α : Type} (p : α → Bool) (l : List α) :
    (l.find? p).isSome = true ↔ ∃ x ∈ l, p x = true := by
  simp [List.find?_isSome]

lemma hasApprovedLeave_iff (db : DB) (emp : String) (d : Int) :
    (db.leave_requests.find? (leaveCovers emp d)).isSome = true ↔
      HasApprovedLeave db emp d := by
  rw [find?_isSome_iff]
  unfold HasApprovedLeave leaveCovers
  constructor
  · rintro ⟨l, hl, hp⟩
    simp only [Bool.and_eq_true, beq_iff_eq, decide_eq_true_eq] at hp
    exact ⟨l, hl, hp.1.1.1, hp.1.1.2, hp.1.2, hp.2⟩
  · rintro ⟨l, hl, h1, h2, h3, h4⟩
    refine ⟨l, hl, ?_⟩
    simp only [Bool.and_eq_true, beq_iff_eq, decide_eq_true_eq]
    exact ⟨⟨⟨h1, h2⟩, h3⟩, h4⟩

lemma isOfficeHoliday_iff (db : DB) (d : Int) :
    (db.holidays.find? (fun h => h.event_date == d)).isSome = true ↔
      IsOfficeHoliday db d := by
  rw [find?_isSome_iff]
  unfold IsOfficeHoliday
  simp only [beq_iff_eq]

lemma pyWeekday_range (d : Int) : 0 ≤ pyWeekday d ∧ pyWeekday d < 7 := by
  unfold pyWeekday
  exact ⟨Int.emod_nonneg d (by norm_num), Int.emod_lt_of_pos d (by norm_num)⟩

lemma pyWeekday_ge_5_iff (d : Int) :
    5 ≤ pyWeekday d ↔ pyWeekday d = 5 ∨ pyWeekday d = 6 := by
  have h := pyWeekday_range d
  omega

/-- C1.  The Daily Status Resolver inside `compile_daily_attendance` follows
the strict precedence LEAVE > HOLIDAY > WEEKEND > (PRESENT/ABSENT by raw
fact presence), first match winning: an approved leave covering the date
gives LEAVE with no check-in; otherwise an office holiday gives HOLIDAY
with no check-in; otherwise a date falling on one of the two last weekdays
of the week gives WEEKEND with no check-in; otherwise a raw attendance
fact, if any, gives PRESENT with check-in equal to the fact's entry
time-of-day (none when the fact has no timestamp), and ABSENT with no
check-in when there is none.  In particular a date covered by both an
approved leave and a holiday resolves to LEAVE. -/
theorem resolver_precedence (db : DB) (emp : String) (d : Int) :
    (HasApprovedLeave db emp d → resolve_status db emp d = ("LEAVE", none)) ∧
    (¬ HasApprovedLeave db emp d → IsOfficeHoliday db d →
      resolve_status db emp d = ("HOLIDAY", none)) ∧
    (¬ HasApprovedLeave db emp d → ¬ IsOfficeHoliday db d →
      (pyWeekday d = 5 ∨ pyWeekday d = 6) →
      resolve_status db emp d = ("WEEKEND", none)) ∧
    (¬ HasApprovedLeave db emp d → ¬ IsOfficeHoliday db d →
      pyWeekday d ≠ 5 → pyWeekday d ≠ 6 →
      ∀ a, db.attendance.find? (attFor emp d) = some a →
        resolve_status db emp d = ("PRESENT", a.entry_time.map PyDateTime.time)) ∧
    (¬ HasApprovedLeave db emp d → ¬ IsOfficeHoliday db d →
      pyWeekday d ≠ 5 → pyWeekday d ≠ 6 →
      db.attendance.find? (attFor emp d) = none →
      resolve_status db emp d = ("ABSENT", none)) ∧
    (HasApprovedLeave db emp d → IsOfficeHoliday db d →
      resolve_status db emp d = ("LEAVE", none)) := by
  have hleave := hasApprovedLeave_iff db emp d
  have hhol := isOfficeHoliday_iff db d
  refine ⟨?_, ?_, ?_, ?_, ?_, ?_⟩
  · intro h
    unfold resolve_status
    rw [if_pos (hleave.mpr h)]
  · intro hnl hh
    unfold resolve_status
    rw [if_neg (fun c => hnl (hleave.mp c)), if_pos (hhol.mpr hh)]
  · intro hnl hnh hw
    unfold resolve_status
    rw [if_neg (fun c => hnl (hleave.mp c)), if_neg (fun c => hnh (hhol.mp c)),
      if_pos ((pyWeekday_ge_5_iff d).mpr hw)]
  · intro hnl hnh h5 h6 a ha
    unfold resolve_status
    rw [if_neg (fun c => hnl (hleave.mp c)), if_neg (fun c => hnh (hhol.mp c)),
      if_neg (fun c => by rcases (pyWeekday_ge_5_iff d).mp c with h | h
                          exacts [h5 h, h6 h]), ha]
  · intro hnl hnh h5 h6 ha
    unfold resolve_status
    rw [if_neg (fun c => hnl (hleave.mp c)), if_neg (fun c => hnh (hhol.mp c)),
      if_neg (fun c => by rcases (pyWeekday_ge_5_iff d).mp c with h | h
                          exacts [h5 h, h6 h]), ha]
  · intro h _
    unfold resolve_status
    rw [if_pos (hleave.mpr h)]

/-- Store used by the witness of `resolver_precedence`: employee EMP001 has
an approved leave over days 0..10, and day 3 is also an office holiday. -/
def dbC1 : DB :=
  { users := [ { id := 1, employee_id := "EMP001", name := "A", department := "Eng", is_active := true } ],
    attendance := [],
    attendance_daily := [],
    leave_requests := [ { employee_id := "EMP001", status := "Approved", start_date := 0, end_date := 10 } ],
    holidays := [ { event_date := 3 } ] }

theorem resolver_precedence_witness :
    HasApprovedLeave dbC1 "EMP001" 3 ∧ IsOfficeHoliday dbC1 3 ∧
      resolve_status dbC1 "EMP001" 3 = ("LEAVE", none) :=
  ⟨by decide, by decide,
    (resolver_precedence dbC1 "EMP001" 3).2.2.2.2.2 (by decide) (by decide)⟩

/-- The derived rows stored for (employee, date). -/
def dailyRowsFor (db : DB) (emp : String) (d : Int) : List AttendanceDaily :=
  db.attendance_daily.filter (dailyFor emp d)

/-- `emp` is the employee id of some active user of the store. -/
def isActiveEmployee (db : DB) (emp : String) : Prop :=
  ∃ u ∈ db.users, u.is_active = true ∧ u.employee_id = emp

instance (db : DB) (emp : String) : Decidable (isActiveEmployee db emp) := by
  unfold isActiveEmployee; infer_instance

/-- The derived row the resolver produces for (employee, date). -/
def resolveRow (db : DB) (emp : String) (d : Int) : AttendanceDaily :=
  { employee_id := emp, date := d, status := (resolve_status db emp d).1,
    check_in_time := (resolve_status db emp d).2 }

lemma compileStep_users (d : Int) (s : DB) (u : User) :
    (compileStep d s u).users = s.users := by
  unfold compileStep; split <;> rfl

lemma compileStep_reads (d : Int) (s : DB) (u : User) :
    (compileStep d s u).leave_requests = s.leave_requests ∧
    (compileStep d s u).holidays = s.holidays ∧
    (compileStep d s u).attendance = s.attendance := by
  unfold compileStep; split <;> exact ⟨rfl, rfl, rfl⟩

lemma compileStep_resolve (d : Int) (s : DB) (u : User) (emp : String) (d' : Int) :
    resolve_status (compileStep d s u) emp d' = resolve_status s emp d' := by
  obtain ⟨h1, h2, h3⟩ := compileStep_reads d s u
  unfold resolve_status
  rw [h1, h2, h3]

lemma compileStep_resolveRow (d : Int) (s : DB) (u : User) (emp : String) (d' : Int) :
    resolveRow (compileStep d s u) emp d' = resolveRow s emp d' := by
  unfold resolveRow
  rw [compileStep_resolve]

lemma dailyRowsFor_ne_nil_iff (s : DB) (emp : String) (d : Int) :
    (s.attendance_daily.find? (dailyFor emp d)).isSome = true ↔
      dailyRowsFor s emp d ≠ [] := by
  rw [find?_isSome_iff]
  unfold dailyRowsFor
  rw [Ne, List.filter_eq_nil_iff]
  push_neg
  simp only [Bool.not_eq_true, Bool.not_eq_false]

lemma rowsFor_compileStep (d : Int) (s : DB) (u : User) (emp : String) :
    dailyRowsFor (compileStep d s u) emp d =
      if dailyRowsFor s u.employee_id d = [] ∧ u.employee_id = emp then
        dailyRowsFor s emp d ++ [ resolveRow s u.employee_id d ]
      else dailyRowsFor s emp d := by
  unfold compileStep
  by_cases hex : (s.attendance_daily.find? (dailyFor u.employee_id d)).isSome = true
  · rw [if_pos hex, if_neg]
    rintro ⟨hnil, -⟩
    exact (dailyRowsFor_ne_nil_iff s u.employee_id d).mp hex hnil
  · rw [if_neg hex]
    have hnil : dailyRowsFor s u.employee_id d = [] := by
      by_contra hc
      exact hex ((dailyRowsFor_ne_nil_iff s u.employee_id d).mpr hc)
    show dailyRowsFor
        { s with attendance_daily := s.attendance_daily ++ [ _ ] } emp d = _
    unfold dailyRowsFor resolveRow
    rw [List.filter_append]
    by_cases hemp : u.employee_id = emp
    · rw [if_pos ⟨hnil, hemp⟩]
      subst hemp
      simp [dailyFor]
    · rw [if_neg (fun c => hemp c.2)]
      have : dailyFor emp d
          { employee_id := u.employee_id, date := d,
            status := (resolve_status s u.employee_id d).1,
            check_in_time := (resolve_status s u.employee_id d).2 } = false := by
        unfold dailyFor
        simp [hemp]
      simp [this]

lemma rowsFor_foldl (d : Int) (l : List User) (s : DB) (emp : String) :
    dailyRowsFor (l.foldl (compileStep d) s) emp d =
      if dailyRowsFor s emp d = [] ∧ emp ∈ l.map (fun u => u.employee_id) then
        [ resolveRow s emp d ]
      else dailyRowsFor s emp d := by
  induction l generalizing s with
  | nil => simp
  | cons u l ih =>
    rw [List.foldl_cons, ih, rowsFor_compileStep, compileStep_resolveRow]
    split_ifs with h1 h2 h3 <;>
      simp_all [List.append_eq_nil, List.map_cons, List.mem_cons]
    · rename_i h2
      exact h2 (h1.2 ▸ h1.1)
    · rename_i hl hc
      rcases hc with ⟨hce, hce2 | ⟨a, ha, hae⟩⟩
      · exact h1 (hce2 ▸ hce) hce2.symm
      · exact hl a ha hae

lemma foldl_compileStep_users (d : Int) (l : List User) (s : DB) :
    (l.foldl (compileStep d) s).users = s.users := by
  induction l generalizing s with
  | nil => rfl
  | cons u l ih => rw [List.foldl_cons, ih, compileStep_users]

lemma foldl_compileStep_id (d : Int) (l : List User) (s : DB)
    (h : ∀ u ∈ l, dailyRowsFor s u.employee_id d ≠ []) :
    l.foldl (compileStep d) s = s := by
  induction l with
  | nil => rfl
  | cons u l ih =>
    have hstep : compileStep d s u = s := by
      unfold compileStep
      rw [if_pos ((dailyRowsFor_ne_nil_iff s u.employee_id d).mpr
        (h u (List.mem_cons_self u l)))]
    rw [List.foldl_cons, hstep]
    exact ih (fun v hv => h v (List.mem_cons_of_mem u hv))

lemma compile_fills_all (db : DB) (d : Int) :
    ∀ u ∈ db.users.filter (fun u => u.is_active),
      dailyRowsFor (compile_daily_attendance db d) u.employee_id d ≠ [] := by
  intro u hu
  unfold compile_daily_attendance
  rw [rowsFor_foldl]
  by_cases hc : dailyRowsFor db u.employee_id d = [] ∧
      u.employee_id ∈ (db.users.filter (fun u => u.is_active)).map
        (fun u => u.employee_id)
  · rw [if_pos hc]; simp
  · rw [if_neg hc]
    intro hnil
    exact hc ⟨hnil, List.mem_map.mpr ⟨u, hu, rfl⟩⟩

/-- C2.  Compilation for a fixed target date is idempotent: a second run
changes nothing at all; the first run leaves every already-present derived
row for the target date untouched; an active employee with no derived row
for the date ends with exactly the single resolved row; and any number of
repeated runs equals a single run. -/
theorem compiler_idempotent (db : DB) (d : Int) :
    compile_daily_attendance (compile_daily_attendance db d) d =
      compile_daily_attendance db d ∧
    (∀ emp, dailyRowsFor db emp d ≠ [] →
      dailyRowsFor (compile_daily_attendance db d) emp d =
        dailyRowsFor db emp d) ∧
    (∀ emp, isActiveEmployee db emp → dailyRowsFor db emp d = [] →
      dailyRowsFor (compile_daily_attendance db d) emp d =
        [ resolveRow db emp d ]) ∧
    (∀ n : ℕ, (fun s => compile_daily_attendance s d)^[n + 1] db =
      compile_daily_attendance db d) := by
  have hidem : compile_daily_attendance (compile_daily_attendance db d) d =
      compile_daily_attendance db d := by
    show ((compile_daily_attendance db d).users.filter
        (fun u => u.is_active)).foldl (compileStep d)
        (compile_daily_attendance db d) = compile_daily_attendance db d
    have husers : (compile_daily_attendance db d).users = db.users := by
      unfold compile_daily_attendance
      exact foldl_compileStep_users d _ db
    rw [husers]
    exact foldl_compileStep_id d _ _ (fun u hu => compile_fills_all db d u hu)
  refine ⟨hidem, ?_, ?_, ?_⟩
  · intro emp hne
    unfold compile_daily_attendance
    rw [rowsFor_foldl, if_neg (fun c => hne c.1)]
  · intro emp hact hnil
    unfold compile_daily_attendance
    rw [rowsFor_foldl, if_pos]
    refine ⟨hnil, ?_⟩
    obtain ⟨u, hu, hua, hue⟩ := hact
    exact List.mem_map.mpr ⟨u, List.mem_filter.mpr ⟨hu, by simp [hua]⟩, hue⟩
  · intro n
    induction n with
    | zero => exact Function.iterate_one _ ▸ rfl
    | succ n ih =>
      rw [Function.iterate_succ_apply', ih, hidem]

/-- Store used by the witness of `compiler_idempotent`: one active user and
no derived rows yet. -/
def dbC2 : DB :=
  { users := [ { id := 1, employee_id := "EMP002", name := "B", department := "Eng", is_active := true } ],
    attendance := [],
    attendance_daily := [],
    leave_requests := [],
    holidays := [] }

theorem compiler_idempotent_witness :
    dailyRowsFor dbC2 "EMP002" 1 = [] ∧
    dailyRowsFor (compile_daily_attendance dbC2 1) "EMP002" 1 =
      [ resolveRow dbC2 "EMP002" 1 ] ∧
    compile_daily_attendance (compile_daily_attendance dbC2 1) 1 =
      compile_daily_attendance dbC2 1 :=
  ⟨by decide,
    (compiler_idempotent dbC2 1).2.2.1 "EMP002" (by decide) (by decide),
    (compiler_idempotent dbC2 1).1⟩

/-! ### The analytics module (`attendance_intelligence.py`) -/

/-- Python truthiness of an optional string: `None` and `""` are falsy. -/
def pyTruthy : Option String → Bool
  | none => false
  | some s => s ≠ ""

/-- A row of the pandas frame built by `get_attendance_dataframe`.  The `z`
field is the column the anomaly detector may assign later; a z score is
irrational in general, so the stored value is the pair (deviation from the
mean, sample variance), meaning z = deviation / sqrt(variance). -/
structure Row where
  employee_id : String
  date : Int
  entry_time : Option PyDateTime
  duration : ℚ
  status : String
  z : Option (ℚ × ℚ) := none
deriving DecidableEq

/-- A pandas frame: the list of column names plus the rows. -/
structure Frame where
  cols : List String
  rows : List Row
deriving DecidableEq

/-- Columns of a frame built from a non-empty list of the ingestion dicts
(`attendance_intelligence.py` lines 32-37). -/
def ingestionCols : List String :=
  [ "employee_id", "date", "entry_time", "duration", "status" ]

/-- The dict appended per raw attendance row
(`attendance_intelligence.py` lines 32-38): `duration` is
`float(r.duration or 0)`, i.e. 0 when the source value is absent. -/
def mkRow (a : Attendance) : Row :=
  { employee_id := a.employee_id, date := a.date, entry_time := a.entry_time,
    duration := a.duration.getD 0, status := a.status }

/-- `pd.DataFrame(data)`: an empty data list yields a frame with no
columns at all. -/
def mkFrame (data : List Row) : Frame :=
  { cols := if data.isEmpty then [] else ingestionCols, rows := data }

/-- `get_attendance_dataframe` (`attendance_intelligence.py` lines 11-40):
filter per employee when the identifier is truthy, keep dates from
`today - 180` on, and keep only rows having an entry timestamp. -/
def get_attendance_dataframe (db : DB) (today : Int)
    (employee_id : Option String) : Frame :=
  let q1 := if pyTruthy employee_id then
      db.attendance.filter (fun a => some a.employee_id == employee_id)
    else db.attendance
  let q2 := q1.filter (fun a => decide (today - 180 ≤ a.date))
  mkFrame (q2.foldl
    (fun acc a => if a.entry_time.isSome then acc ++ [ mkRow a ] else acc) [])

/-- Floor of a rational, kernel-computable. -/
def ratFloor (x : ℚ) : Int := Int.fdiv x.num (x.den : Int)

/-- Python `round` (banker's rounding) of a rational to an integer. -/
def roundHalfEven (x : ℚ) : Int :=
  let f := ratFloor x
  if x - f < 1/2 then f
  else if 1/2 < x - f then f + 1
  else if f % 2 = 0 then f else f + 1

/-- Python `round(x, 2)`. -/
def round2 (x : ℚ) : ℚ := (roundHalfEven (100 * x) : ℚ) / 100

/-- pandas `.mean()`; the mean of an empty selection (NaN in pandas) is
modelled as 0 and never reaches any property proved below. -/
def pandasMean (l : List ℚ) : ℚ :=
  match l with
  | [] => 0
  | _ => l.sum / l.length

/-- pandas `.min()` of a non-empty column. -/
def pandasMin (l : List ℚ) : ℚ :=
  match l with
  | [] => 0
  | x :: xs => xs.foldl min x

/-- pandas `.max()` of a non-empty column. -/
def pandasMax (l : List ℚ) : ℚ :=
  match l with
  | [] => 0
  | x :: xs => xs.foldl max x

/-- `login_hour` of a row: hour component of the entry timestamp, absent
(NaN) when the row has no timestamp. -/
def rowHour (r : Row) : Option Int := r.entry_time.map (fun t => t.tod.hour)

/-- The value lists of `chart_breakdown`. -/
structure Chart where
  labels : List String
  values : List Int
deriving DecidableEq

/-- The fixed-shape report of `compute_behavior_metrics`. -/
structure Metrics where
  average_login_hour : ℚ
  average_work_hours : ℚ
  late_arrival_days : Int
  absent_days : Int
  leave_days : Int
  present_days : Int
  min_work_hours : ℚ
  max_work_hours : ℚ
  total_days_analyzed : Int
  absence_trend : String
  attendance_score : Int
  risk_level : String
  chart_breakdown : Chart
deriving DecidableEq

/-- The all-zero default report (`attendance_intelligence.py` lines
55-72). -/
def defaultMetrics : Metrics :=
  { average_login_hour := 0, average_work_hours := 0, late_arrival_days := 0,
    absent_days := 0, leave_days := 0, present_days := 0,
    min_work_hours := 0, max_work_hours := 0, total_days_analyzed := 0,
    absence_trend := "stable", attendance_score := 0, risk_level := "high",
    chart_breakdown := { labels := [], values := [] } }

/-- `compute_behavior_metrics` (`attendance_intelligence.py` lines 46-135).
Access to a column the frame does not have is a pandas `KeyError`,
modelled as the `.error` case; the code guards only `df.empty` and the
`entry_time` column. -/
def compute_behavior_metrics (df : Frame) (db : Option DB)
    (employee_id : Option String) : Except String Metrics :=
  if df.rows.isEmpty then .ok defaultMetrics
  else if ! df.cols.contains "entry_time" then .ok defaultMetrics
  else if ! df.cols.contains "status" then .error "KeyError: status"
  else
    let hours := df.rows.filterMap rowHour
    let present : Int := df.rows.countP (fun r => r.status == "PRESENT")
    let absent : Int := df.rows.countP (fun r => r.status == "ABSENT")
    let late : Int := df.rows.countP (fun r =>
      match rowHour r with
      | some h => decide (10 < h)
      | none => false)
    let leave_days : Int :=
      match db, employee_id with
      | some d, some e =>
        if e ≠ "" then
          ((d.leave_requests.filter (fun l =>
              l.employee_id == e && l.status == "Approved")).map
            (fun l => l.end_date - l.start_date + 1)).sum
        else 0
      | _, _ => 0
    if ! df.cols.contains "duration" then .error "KeyError: duration"
    else
      let durs := df.rows.map (fun r => r.duration)
      let score0 : Int := 100 - late * 2 - absent * 6 - leave_days * 1
      let score : Int := max 0 (if present = 0 then 0 else score0)
      .ok { average_login_hour := round2 (pandasMean (hours.map (fun h => (h : ℚ)))),
            average_work_hours := round2 (pandasMean durs),
            late_arrival_days := late,
            absent_days := absent,
            leave_days := leave_days,
            present_days := present,
            min_work_hours := round2 (pandasMin durs),
            max_work_hours := round2 (pandasMax durs),
            total_days_analyzed := df.rows.length,
            absence_trend := "stable",
            attendance_score := score,
            risk_level := if score < 60 then "high"
              else if score < 80 then "medium" else "low",
            chart_breakdown :=
              { labels := [ "Present", "Absent", "Leave", "Late" ],
                values := [ present, absent, leave_days, late ] } }

/-- Mean of the duration column. -/
def durMean (df : Frame) : ℚ := pandasMean (df.rows.map (fun r => r.duration))

/-- Square of pandas `df["duration"].std()`: the sample variance,
normalised by n - 1. -/
def sampleVar (df : Frame) : ℚ :=
  ((df.rows.map (fun r => (r.duration - durMean df) ^ 2)).sum) /
    ((df.rows.length : ℚ) - 1)

/-- Two-digit zero-padded rendering of a value below 100. -/
def pad2 (n : Int) : String := if n < 10 then "0" ++ toString n else toString n

/-- Python `f"{x:.2f}"`: fixed-point rendering with two decimals. -/
def fmt2 (x : ℚ) : String :=
  let c := roundHalfEven (100 * x)
  if c < 0 then "-" ++ toString ((-c) / 100) ++ "." ++ pad2 ((-c) % 100)
  else toString (c / 100) ++ "." ++ pad2 (c % 100)

/-- An anomaly record. -/
structure Anomaly where
  employee_id : String
  date : String
  reason : String
deriving DecidableEq

/-- The record emitted per flagged row (`attendance_intelligence.py` lines
150-154): employee id, the date rendered as a string, and a reason citing
the duration with two decimal places. -/
def mkAnomaly (r : Row) : Anomaly :=
  { employee_id := r.employee_id, date := toString r.date,
    reason := "Unusual work duration (" ++ fmt2 r.duration ++ "h)" }

/-- `detect_attendance_anomalies` (`attendance_intelligence.py` lines
141-156).  Line 148 assigns a `z` column to the very frame the caller
passed in (there is no `df.copy()` here), so the embedding returns the
pair (anomaly list, frame as the function leaves it).  The flag test
`abs(df["z"]) > 2` reads the stored z value (dev, var) and is the exact
comparison dev^2 > 4 * var. -/
def detect_attendance_anomalies (df : Frame) : List Anomaly × Frame :=
  if df.rows.isEmpty || ! df.cols.contains "duration" || df.rows.length < 10 then
    ([], df)
  else
    if 0 < sampleVar df then
      let df2 : Frame :=
        { cols := if df.cols.contains "z" then df.cols else df.cols ++ [ "z" ],
          rows := df.rows.map (fun r =>
            { r with z := some (r.duration - durMean df, sampleVar df) }) }
      ((df2.rows.filter (fun r =>
          match r.z with
          | some zv => decide (4 * zv.2 < zv.1 ^ 2)
          | none => false)).map mkAnomaly, df2)
    else ([], df)

/-- An entry of the department leave-abuse report. -/
structure AbuseRec where
  department : String
  avg_leave : ℚ
  org_avg : ℚ
deriving DecidableEq

/-- The join of approved leave requests with active users
(`attendance_intelligence.py` lines 163-171), one (department, start, end)
triple per matching pair. -/
def approvedActiveLeaves (db : DB) : List (String × Int × Int) :=
  (db.leave_requests.filter (fun l => l.status == "Approved")).flatMap
    (fun l => (db.users.filter (fun u =>
        u.is_active && u.employee_id == l.employee_id)).map
      (fun u => (u.department, l.start_date, l.end_date)))

/-- `(end - start).days + 1` for one joined triple. -/
def tripleDays (p : String × Int × Int) : Int := p.2.2 - p.2.1 + 1

/-- `dept_leave[dept]` (lines 176-178): approved leave days accumulated
per department. -/
def dept_leave (db : DB) (dept : String) : Int :=
  (((approvedActiveLeaves db).filter (fun p => p.1 == dept)).map tripleDays).sum

/-- The key set of the `dept_leave` dict (its iteration order is
immaterial to every property below, so the embedding dedups). -/
def leaveDepts (db : DB) : List String :=
  ((approvedActiveLeaves db).map (fun p => p.1)).dedup

/-- `emp_counts[dept]` (lines 180-185): active headcount per department;
0 exactly when the department is absent from the dict. -/
def emp_count (db : DB) (dept : String) : ℕ :=
  (db.users.filter (fun u => u.is_active && u.department == dept)).length

/-- The key set of the `emp_counts` dict. -/
def activeDepts (db : DB) : List String :=
  ((db.users.filter (fun u => u.is_active)).map (fun u => u.department)).dedup

/-- `total_leave = sum(dept_leave.values())` (line 187). -/
def total_leave (db : DB) : Int := ((leaveDepts db).map (dept_leave db)).sum

/-- `total_emp = sum(emp_counts.values())` (line 188). -/
def total_emp (db : DB) : ℕ := ((activeDepts db).map (emp_count db)).sum

/-- `org_avg` (line 189): total leave over total active employees, 0 when
there are no active employees. -/
def org_avg (db : DB) : ℚ :=
  if total_emp db ≠ 0 then (total_leave db : ℚ) / (total_emp db : ℚ) else 0

/-- `avg = days / emp_counts.get(dept, 1)` (line 193): the dict lookup
falls back to 1 for a department with no active employees. -/
def dept_avg (db : DB) (dept : String) : ℚ :=
  (dept_leave db dept : ℚ) /
    ((if emp_count db dept = 0 then 1 else emp_count db dept : ℕ) : ℚ)

/-- `detect_department_leave_abuse` (`attendance_intelligence.py` lines
162-201). -/
def detect_department_leave_abuse (db : DB) : List AbuseRec :=
  if (approvedActiveLeaves db).isEmpty then []
  else (leaveDepts db).filterMap (fun dept =>
    if org_avg db * (3/2) < dept_avg db dept then
      some { department := dept, avg_leave := round2 (dept_avg db dept),
             org_avg := round2 (org_avg db) }
    else none)

/-- The record returned by the risk predictor. -/
structure RiskResult where
  employee_id : String
  risk : String
  risk_score : Int
deriving DecidableEq

/-- `predict_absenteeism_risk` (`attendance_intelligence.py` lines
207-234): twice the count of raw ABSENT facts dated on or after
`today - 90`, plus 10 when the 180-day-window attendance score is below
70, classified high at 20 and medium at 10. -/
def predict_absenteeism_risk (db : DB) (today : Int) (employee_id : String) :
    Except String RiskResult :=
  let three_months_ago := today - 90
  let recent_absents : Int :=
    (db.attendance.filter (fun a =>
      a.employee_id == employee_id && a.status == "ABSENT" &&
        decide (three_months_ago ≤ a.date))).length
  let df := get_attendance_dataframe db today (some employee_id)
  (compute_behavior_metrics df (some db) (some employee_id)).map (fun m =>
    let risk_score := recent_absents * 2 +
      (if m.attendance_score < 70 then 10 else 0)
    { employee_id := employee_id,
      risk := if 20 ≤ risk_score then "high"
        else if 10 ≤ risk_score then "medium" else "low",
      risk_score := risk_score })

instance {ε α : Type} [DecidableEq ε] [DecidableEq α] :
    DecidableEq (Except ε α) := fun a b =>
  match a, b with
  | .ok x, .ok y =>
    if h : x = y then .isTrue (h ▸ rfl)
    else .isFalse (fun hc => h (Except.ok.inj hc))
  | .error x, .error y =>
    if h : x = y then .isTrue (h ▸ rfl)
    else .isFalse (fun hc => h (Except.error.inj hc))
  | .ok _, .error _ => .isFalse (fun hc => Except.noConfusion hc)
  | .error _, .ok _ => .isFalse (fun hc => Except.noConfusion hc)

/-- C3 (amended).  For every table that is empty or lacks the
`entry_time` field, and for every employee-id argument with or without a
leave-lookup store, `compute_behavior_metrics` returns the documented
all-zero default report and does not raise.  (The code guards only
`df.empty` and the `entry_time` column; a non-empty table lacking
`status` or `duration` raises a `KeyError` instead — see the
counterexample theorem.) -/
theorem metrics_default_on_degenerate (df : Frame) (db : Option DB)
    (eid : Option String) (h : df.rows = [] ∨ "entry_time" ∉ df.cols) :
    compute_behavior_metrics df db eid = .ok defaultMetrics := by
  unfold compute_behavior_metrics
  rcases h with h | h
  · rw [if_pos (by rw [h]; rfl)]
  · by_cases hr : df.rows.isEmpty = true
    · rw [if_pos hr]
    · rw [if_neg hr, if_pos]
      simp only [Bool.not_eq_true']
      simpa using h

theorem metrics_default_on_degenerate_witness :
    compute_behavior_metrics { cols := [], rows := [] } none none =
      .ok defaultMetrics :=
  metrics_default_on_degenerate { cols := [], rows := [] } none none
    (Or.inl rfl)

/-- A non-empty frame that has `entry_time` but lacks `status`. -/
def frameC3 : Frame :=
  { cols := [ "entry_time" ],
    rows := [ { employee_id := "E", date := 0,
                entry_time := some { day := 0, tod := { hour := 9, minute := 0 } },
                duration := 0, status := "PRESENT" } ] }

/-- C3 counterexample: a non-empty table lacking the required `status`
field makes `compute_behavior_metrics` raise a `KeyError` instead of
returning the default report, refuting "never raises" for every table
that lacks required fields. -/
theorem metrics_missing_status_raises :
    "status" ∉ frameC3.cols ∧
    compute_behavior_metrics frameC3 none none = .error "KeyError: status" :=
  ⟨by decide, rfl⟩

/-- The `leave_days` field of a metrics result, 0 for the error case. -/
def leaveDaysOfResult : Except String Metrics → Int
  | .ok m => m.leave_days
  | .error _ => 0

lemma leaveDaysOfResult_none (df : Frame) :
    leaveDaysOfResult (compute_behavior_metrics df none none) = 0 := by
  unfold compute_behavior_metrics
  dsimp only
  split
  · rfl
  · split
    · rfl
    · split
      · rfl
      · split
        · rfl
        · rfl

/-- C10.  An empty-string employee identifier is falsy in Python, so the
extractor returns the all-employees frame and the metrics engine skips
the leave lookup entirely (`leave_days = 0`) even when a store is
supplied: both behave exactly as with no identifier. -/
theorem empty_employee_id_means_all (db : DB) (today : Int) (df : Frame) :
    get_attendance_dataframe db today (some "") =
      get_attendance_dataframe db today none ∧
    compute_behavior_metrics df (some db) (some "") =
      compute_behavior_metrics df none none ∧
    (∀ m, compute_behavior_metrics df (some db) (some "") = .ok m →
      m.leave_days = 0) := by
  refine ⟨rfl, rfl, ?_⟩
  intro m h
  have h0 : compute_behavior_metrics df none none = .ok m := h
  have h1 := leaveDaysOfResult_none df
  rw [h0] at h1
  exact h1

theorem empty_employee_id_means_all_witness :
    get_attendance_dataframe dbC1 5 (some "") =
      get_attendance_dataframe dbC1 5 none ∧
    defaultMetrics.leave_days = 0 :=
  ⟨(empty_employee_id_means_all dbC1 5 { cols := [], rows := [] }).1,
    (empty_employee_id_means_all dbC1 5 { cols := [], rows := [] }).2.2
      defaultMetrics rfl⟩

/-- The row filter of the extractor, as a single predicate: per-employee
restriction only for a truthy identifier, date on or after
`today - 180`, and an entry timestamp present. -/
def extractorPred (today : Int) (eid : Option String) (a : Attendance) : Bool :=
  (if pyTruthy eid then some a.employee_id == eid else true) &&
    decide (today - 180 ≤ a.date) && a.entry_time.isSome

lemma foldl_append_rows (l : List Attendance) (acc : List Row) :
    l.foldl (fun acc a => if a.entry_time.isSome then acc ++ [ mkRow a ]
        else acc) acc =
      acc ++ (l.filter (fun a => a.entry_time.isSome)).map mkRow := by
  induction l generalizing acc with
  | nil => simp
  | cons a l ih =>
    rw [List.foldl_cons]
    by_cases h : a.entry_time.isSome = true
    · rw [if_pos h, ih]
      simp [List.filter_cons, h]
    · rw [if_neg h, ih]
      simp [List.filter_cons, h]

/-- C6 (amended).  The extractor returns exactly the raw facts whose
entry timestamp is present and whose date is on or after `today - 180`
(restricted to the given employee when a non-empty identifier is
supplied), with `duration` defaulting to 0 when the source value is
absent; there is no upper date bound, so future-dated facts are included
(see the counterexample theorem). -/
theorem extractor_characterization (db : DB) (today : Int)
    (eid : Option String) :
    (get_attendance_dataframe db today eid).rows =
      (db.attendance.filter (extractorPred today eid)).map mkRow ∧
    (∀ r ∈ (get_attendance_dataframe db today eid).rows,
      today - 180 ≤ r.date ∧ r.entry_time.isSome = true) ∧
    (∀ e, eid = some e → e ≠ "" →
      ∀ r ∈ (get_attendance_dataframe db today eid).rows,
        r.employee_id = e) := by
  have hrows : (get_attendance_dataframe db today eid).rows =
      (db.attendance.filter (extractorPred today eid)).map mkRow := by
    unfold get_attendance_dataframe mkFrame
    dsimp only
    rw [foldl_append_rows, List.nil_append]
    congr 1
    by_cases ht : pyTruthy eid = true
    · rw [if_pos ht, List.filter_filter, List.filter_filter]
      apply List.filter_congr
      intro a _
      unfold extractorPred
      rw [ht, if_pos rfl]
      cases h1 : (some a.employee_id == eid) <;>
        cases h2 : decide (today - 180 ≤ a.date) <;>
        cases h3 : a.entry_time.isSome <;> rfl
    · rw [if_neg ht, List.filter_filter]
      apply List.filter_congr
      intro a _
      unfold extractorPred
      rw [Bool.not_eq_true] at ht
      rw [ht, if_neg (fun c => Bool.noConfusion c)]
      cases h2 : decide (today - 180 ≤ a.date) <;>
        cases h3 : a.entry_time.isSome <;> rfl
  refine ⟨hrows, ?_, ?_⟩
  · intro r hr
    rw [hrows] at hr
    obtain ⟨a, ha, hra⟩ := List.mem_map.mp hr
    have hp := (List.mem_filter.mp ha).2
    unfold extractorPred at hp
    simp only [Bool.and_eq_true, decide_eq_true_eq] at hp
    rw [← hra]
    exact ⟨hp.1.2, hp.2⟩
  · intro e he hne r hr
    subst he
    rw [hrows] at hr
    obtain ⟨a, ha, hra⟩ := List.mem_map.mp hr
    have hp := (List.mem_filter.mp ha).2
    unfold extractorPred at hp
    have htr : pyTruthy (some e) = true := by
      unfold pyTruthy
      exact decide_eq_true hne
    rw [htr, if_pos rfl] at hp
    simp only [Bool.and_eq_true, beq_iff_eq, Option.some.injEq] at hp
    rw [← hra]
    exact hp.1.1

/-- A raw fact used by the witness of `extractor_characterization`. -/
def aC6w : Attendance :=
  { id := 1, employee_id := "A", date := 100,
    entry_time := some { day := 100, tod := { hour := 9, minute := 0 } },
    duration := some 8, status := "PRESENT" }

/-- Store used by the witness of `extractor_characterization`. -/
def dbC6w : DB :=
  { users := [],
    attendance :=
      [ aC6w,
        { id := 2, employee_id := "B", date := -300,
          entry_time := some { day := -300, tod := { hour := 9, minute := 0 } },
          duration := some 8, status := "PRESENT" },
        { id := 3, employee_id := "A", date := 120, entry_time := none,
          duration := some 8, status := "ABSENT" } ],
    attendance_daily := [], leave_requests := [], holidays := [] }

theorem extractor_characterization_witness :
    (get_attendance_dataframe dbC6w 200 (some "A")).rows = [ mkRow aC6w ] ∧
    200 - 180 ≤ (mkRow aC6w).date :=
  ⟨by decide,
    ((extractor_characterization dbC6w 200 (some "A")).2.1 (mkRow aC6w)
      (by decide)).1⟩

/-- Store holding one future-dated raw fact. -/
def dbC6 : DB :=
  { users := [],
    attendance :=
      [ { id := 1, employee_id := "C", date := 5,
          entry_time := some { day := 5, tod := { hour := 9, minute := 0 } },
          duration := some 8, status := "PRESENT" } ],
    attendance_daily := [], leave_requests := [], holidays := [] }

/-- C6 counterexample: with today = 0, a raw fact dated day 5 (after
today) is returned by the extractor, refuting the claim that no row dated
after today is ever returned — the code has no upper bound on the date
window. -/
theorem extractor_returns_future_row :
    (get_attendance_dataframe dbC6 0 none).rows.map (fun r => r.date) = [ 5 ] ∧
    ¬ ((5 : Int) ≤ 0) :=
  ⟨by decide, by decide⟩

lemma score_shape (df : Frame) (db : Option DB) (eid : Option String) :
    ∀ m, compute_behavior_metrics df db eid = .ok m →
      m.attendance_score =
        max 0 (if m.present_days = 0 then 0
          else 100 - m.late_arrival_days * 2 - m.absent_days * 6 -
            m.leave_days * 1) ∧
      0 ≤ m.attendance_score ∧
      (m.present_days = 0 → m.attendance_score = 0) ∧
      (0 ≤ m.leave_days → m.attendance_score ≤ 100) := by
  unfold compute_behavior_metrics
  dsimp only
  have hdef : ∀ m, Except.ok defaultMetrics = Except.ok (ε := String) m →
      m.attendance_score =
        max 0 (if m.present_days = 0 then 0
          else 100 - m.late_arrival_days * 2 - m.absent_days * 6 -
            m.leave_days * 1) ∧
      0 ≤ m.attendance_score ∧
      (m.present_days = 0 → m.attendance_score = 0) ∧
      (0 ≤ m.leave_days → m.attendance_score ≤ 100) := by
    intro m hm
    injection hm with h'
    subst h'
    refine ⟨by decide, by decide, fun _ => by decide, fun _ => by decide⟩
  split
  · exact hdef
  · split
    · exact hdef
    · split
      · intro m hm; cases hm
      · split
        · intro m hm; cases hm
        · intro m hm
          injection hm with h'
          subst h'
          have hlate : (0 : Int) ≤ (df.rows.countP (fun r =>
              match rowHour r with
              | some h => decide (10 < h)
              | none => false) : Int) := Int.natCast_nonneg _
          have habs : (0 : Int) ≤ (df.rows.countP
              (fun r => r.status == "ABSENT") : Int) := Int.natCast_nonneg _
          refine ⟨rfl, le_max_left 0 _, ?_, ?_⟩
          · intro hp
            dsimp only at hp ⊢
            rw [if_pos hp]
            exact max_self 0
          · intro hl
            dsimp only at hl ⊢
            apply max_le (by norm_num)
            split_ifs
            · norm_num
            · omega

/-- C4 (amended).  For every metrics result, `attendance_score` equals
the clamped subtractive formula `max 0 (100 - 2*late - 6*absent - leave)`
(forced to 0 when `present_days = 0`), hence is never negative; it is
bounded by 100 whenever `leave_days` is non-negative, but an approved
leave request whose end date precedes its start date makes `leave_days`
negative and pushes the score above 100 (see the counterexample
theorem), so the unconditional upper bound of the claim fails. -/
theorem attendance_score_clamp (df : Frame) (db : Option DB)
    (eid : Option String) (m : Metrics)
    (h : compute_behavior_metrics df db eid = .ok m) :
    m.attendance_score =
      max 0 (if m.present_days = 0 then 0
        else 100 - m.late_arrival_days * 2 - m.absent_days * 6 -
          m.leave_days * 1) ∧
    0 ≤ m.attendance_score ∧
    (m.present_days = 0 → m.attendance_score = 0) ∧
    (0 ≤ m.leave_days → m.attendance_score ≤ 100) :=
  score_shape df db eid m h

/-- One-row PRESENT frame shared by the C4 witness and counterexample. -/
def frameC4 : Frame :=
  { cols := ingestionCols,
    rows := [ { employee_id := "E", date := 0,
                entry_time := some { day := 0, tod := { hour := 9, minute := 0 } },
                duration := 8, status := "PRESENT" } ] }

/-- Metrics of `frameC4` with no leave lookup. -/
def mC4 : Metrics :=
  { average_login_hour := 9, average_work_hours := 8, late_arrival_days := 0,
    absent_days := 0, leave_days := 0, present_days := 1,
    min_work_hours := 8, max_work_hours := 8, total_days_analyzed := 1,
    absence_trend := "stable", attendance_score := 100, risk_level := "low",
    chart_breakdown := { labels := [ "Present", "Absent", "Leave", "Late" ],
                         values := [ 1, 0, 0, 0 ] } }

theorem attendance_score_clamp_witness :
    compute_behavior_metrics frameC4 none none = .ok mC4 ∧
    0 ≤ mC4.attendance_score ∧ mC4.attendance_score ≤ 100 := by
  have h : compute_behavior_metrics frameC4 none none = .ok mC4 := by
    with_unfolding_all decide
  have hc := attendance_score_clamp frameC4 none none mC4 h
  exact ⟨h, hc.2.1, hc.2.2.2 (by decide)⟩

/-- Store holding an approved leave request whose end date precedes its
start date, giving `(end - start).days + 1 = -9`. -/
def dbC4 : DB :=
  { users := [], attendance := [], attendance_daily := [],
    leave_requests := [ { employee_id := "E", status := "Approved",
                          start_date := 10, end_date := 0 } ],
    holidays := [] }

/-- Metrics of `frameC4` against `dbC4` for employee E. -/
def mC4neg : Metrics :=
  { average_login_hour := 9, average_work_hours := 8, late_arrival_days := 0,
    absent_days := 0, leave_days := -9, present_days := 1,
    min_work_hours := 8, max_work_hours := 8, total_days_analyzed := 1,
    absence_trend := "stable", attendance_score := 109, risk_level := "low",
    chart_breakdown := { labels := [ "Present", "Absent", "Leave", "Late" ],
                         values := [ 1, 0, -9, 0 ] } }

/-- C4 counterexample: an approved leave request with end before start
makes `leave_days = -9`, and the reported `attendance_score` is 109,
outside [0, 100] — the claimed unconditional upper bound is false. -/
theorem score_exceeds_100_on_negative_leave :
    compute_behavior_metrics frameC4 (some dbC4) (some "E") = .ok mC4neg ∧
    ¬ (mC4neg.attendance_score ≤ 100) :=
  ⟨by with_unfolding_all decide, by decide⟩

/-- The early-exit condition of the anomaly detector, as a proposition. -/
def DetectorSkips (df : Frame) : Prop :=
  df.rows = [] ∨ "duration" ∉ df.cols ∨ df.rows.length < 10

instance (df : Frame) : Decidable (DetectorSkips df) := by
  unfold DetectorSkips; infer_instance

lemma detector_guard_iff (df : Frame) :
    (df.rows.isEmpty || ! df.cols.contains "duration" ||
      decide (df.rows.length < 10)) = true ↔ DetectorSkips df := by
  unfold DetectorSkips
  simp [List.isEmpty_iff, or_assoc]

lemma detector_guard_false (df : Frame) (h : ¬ DetectorSkips df) :
    (df.rows.isEmpty || ! df.cols.contains "duration" ||
      decide (df.rows.length < 10)) = false := by
  rw [← Bool.not_eq_true]
  intro c
  exact h ((detector_guard_iff df).mp c)

/-- C5 (amended).  The anomaly detector returns the empty list when the
table is empty, lacks a `duration` field, or has fewer than 10 rows, and
also when the variance of `duration` is zero; otherwise it flags exactly
the rows whose squared deviation from the mean exceeds 4 times the
SAMPLE variance (pandas `.std()` normalises by n - 1, not by n as the
spec's "population standard deviation" says — see the counterexample
theorem), i.e. the rows with |z| > 2 for the sample z-score, emitting
employee id, the date as a string and a reason citing the duration with
two decimal places. -/
theorem anomalies_characterization (df : Frame) :
    (DetectorSkips df → (detect_attendance_anomalies df).1 = []) ∧
    (sampleVar df = 0 → (detect_attendance_anomalies df).1 = []) ∧
    (¬ DetectorSkips df → 0 < sampleVar df →
      (detect_attendance_anomalies df).1 =
        (df.rows.filter (fun r =>
          decide (4 * sampleVar df < (r.duration - durMean df) ^ 2))).map
          mkAnomaly) := by
  refine ⟨?_, ?_, ?_⟩
  · intro h
    unfold detect_attendance_anomalies
    rw [if_pos ((detector_guard_iff df).mpr h)]
  · intro hv
    unfold detect_attendance_anomalies
    by_cases hg : DetectorSkips df
    · rw [if_pos ((detector_guard_iff df).mpr hg)]
    · rw [if_neg (by rw [detector_guard_false df hg]; exact Bool.false_ne_true),
        if_neg (by rw [hv]; exact lt_irrefl 0)]
  · intro hg hv
    unfold detect_attendance_anomalies
    rw [if_neg (by rw [detector_guard_false df hg]; exact Bool.false_ne_true),
      if_pos hv]
    dsimp only
    rw [List.filter_map, List.map_map]
    have hfil : df.rows.filter ((fun r =>
        match r.z with
        | some zv => decide (4 * zv.2 < zv.1 ^ 2)
        | none => false) ∘ (fun r =>
          { r with z := some (r.duration - durMean df, sampleVar df) })) =
        df.rows.filter (fun r =>
          decide (4 * sampleVar df < (r.duration - durMean df) ^ 2)) :=
      List.filter_congr (fun r _ => rfl)
    rw [hfil]
    exact List.map_congr_left (fun r _ => rfl)

/-- Ten-row frame with nine durations of 8 and one outlier of 20. -/
def frameC5w : Frame :=
  { cols := ingestionCols,
    rows := ((List.range 9).map (fun i =>
      { employee_id := "W", date := (i : Int) + 1,
        entry_time := some { day := (i : Int) + 1,
                             tod := { hour := 9, minute := 0 } },
        duration := 8, status := "PRESENT" })) ++
      [ { employee_id := "W10", date := 10,
          entry_time := some { day := 10, tod := { hour := 9, minute := 0 } },
          duration := 20, status := "PRESENT" } ] }

theorem anomalies_characterization_witness :
    ¬ DetectorSkips frameC5w ∧ 0 < sampleVar frameC5w ∧
    (detect_attendance_anomalies frameC5w).1 =
      [ { employee_id := "W10", date := "10",
          reason := "Unusual work duration (20.00h)" } ] := by
  have h1 : ¬ DetectorSkips frameC5w := by decide
  have h2 : 0 < sampleVar frameC5w := by with_unfolding_all decide
  refine ⟨h1, h2, ?_⟩
  rw [(anomalies_characterization frameC5w).2.2 h1 h2]
  with_unfolding_all decide

/-- Population variance of the duration column: normalised by n, per the
spec's words. -/
def specPopulationVar (df : Frame) : ℚ :=
  ((df.rows.map (fun r => (r.duration - durMean df) ^ 2)).sum) /
    (df.rows.length : ℚ)

/-- The anomaly list the spec describes, using the POPULATION standard
deviation (this definition follows the spec's words, for comparison with
the code's `detect_attendance_anomalies`, which uses the sample standard
deviation). -/
def specPopulationAnomalies (df : Frame) : List Anomaly :=
  if df.rows.isEmpty || ! df.cols.contains "duration" ||
      decide (df.rows.length < 10) then []
  else if 0 < specPopulationVar df then
    (df.rows.filter (fun r =>
      decide (4 * specPopulationVar df < (r.duration - durMean df) ^ 2))).map
      mkAnomaly
  else []

/-- Ten-row frame with eight durations of 7, one of 11.8 and one of 12.2:
the 12.2 row has population z-score about 2.098 (flagged by the spec's
population rule) but sample z-score about 1.990 (not flagged by the
code). -/
def frameC5c : Frame :=
  { cols := ingestionCols,
    rows := ((List.range 8).map (fun i =>
      { employee_id := "F", date := (i : Int) + 1,
        entry_time := some { day := (i : Int) + 1,
                             tod := { hour := 9, minute := 0 } },
        duration := 7, status := "PRESENT" })) ++
      [ { employee_id := "F9", date := 9,
          entry_time := some { day := 9, tod := { hour := 9, minute := 0 } },
          duration := 59/5, status := "PRESENT" },
        { employee_id := "F10", date := 10,
          entry_time := some { day := 10, tod := { hour := 9, minute := 0 } },
          duration := 61/5, status := "PRESENT" } ] }

/-- C5 counterexample: on `frameC5c` the code (sample standard deviation)
flags nothing, while the claimed population-standard-deviation rule flags
exactly the 12.2-hour row, so the claim as stated is false on the code. -/
theorem anomalies_sample_not_population :
    (detect_attendance_anomalies frameC5c).1 = [] ∧
    specPopulationAnomalies frameC5c =
      [ { employee_id := "F10", date := "10",
          reason := "Unusual work duration (12.20h)" } ] ∧
    (detect_attendance_anomalies frameC5c).1 ≠
      specPopulationAnomalies frameC5c := by
  refine ⟨?_, ?_, ?_⟩ <;> with_unfolding_all decide

/-- Remove the `z` column value from a row. -/
def eraseZ (r : Row) : Row := { r with z := none }

/-- C9 (amended).  The anomaly detector never alters the values of the
original columns of its argument, and leaves the table entirely unchanged
on every early-exit or zero-variance path; but on the flagging path
(at least 10 rows, a duration column, positive variance) it DOES mutate
the caller's table by assigning a `z` column to it, so the table the
caller passed in is not the same after the call. -/
theorem anomalies_frame_effect (df : Frame) :
    ((detect_attendance_anomalies df).2.rows.map eraseZ =
      df.rows.map eraseZ) ∧
    ((detect_attendance_anomalies df).2.cols.filter (fun c => c != "z") =
      df.cols.filter (fun c => c != "z")) ∧
    (DetectorSkips df → (detect_attendance_anomalies df).2 = df) ∧
    (sampleVar df ≤ 0 → (detect_attendance_anomalies df).2 = df) ∧
    (¬ DetectorSkips df → 0 < sampleVar df → "z" ∉ df.cols →
      (detect_attendance_anomalies df).2 ≠ df) := by
  have hskip : ∀ h : DetectorSkips df, (detect_attendance_anomalies df).2 = df := by
    intro h
    unfold detect_attendance_anomalies
    rw [if_pos ((detector_guard_iff df).mpr h)]
  have hnovar : ∀ _h : ¬ DetectorSkips df, ¬ 0 < sampleVar df →
      (detect_attendance_anomalies df).2 = df := by
    intro hg hv
    unfold detect_attendance_anomalies
    rw [if_neg (by rw [detector_guard_false df hg]; exact Bool.false_ne_true),
      if_neg hv]
  have hmut : ∀ _hg : ¬ DetectorSkips df, 0 < sampleVar df →
      (detect_attendance_anomalies df).2 =
        { cols := if df.cols.contains "z" then df.cols
            else df.cols ++ [ "z" ],
          rows := df.rows.map (fun r =>
            { r with z := some (r.duration - durMean df, sampleVar df) }) } := by
    intro hg hv
    unfold detect_attendance_anomalies
    rw [if_neg (by rw [detector_guard_false df hg]; exact Bool.false_ne_true),
      if_pos hv]
  refine ⟨?_, ?_, hskip, ?_, ?_⟩
  · by_cases hg : DetectorSkips df
    · rw [hskip hg]
    · by_cases hv : 0 < sampleVar df
      · rw [hmut hg hv]
        dsimp only
        rw [List.map_map]
        exact List.map_congr_left (fun r _ => rfl)
      · rw [hnovar hg hv]
  · by_cases hg : DetectorSkips df
    · rw [hskip hg]
    · by_cases hv : 0 < sampleVar df
      · rw [hmut hg hv]
        dsimp only
        by_cases hz : df.cols.contains "z" = true
        · rw [if_pos hz]
        · rw [if_neg hz, List.filter_append]
          simp
      · rw [hnovar hg hv]
  · intro hv
    by_cases hg : DetectorSkips df
    · exact hskip hg
    · exact hnovar hg (not_lt.mpr hv)
  · intro hg hv hz heq
    rw [hmut hg hv] at heq
    have hc := congrArg Frame.cols heq
    dsimp only at hc
    rw [if_neg (by simpa using hz)] at hc
    have := congrArg List.length hc
    rw [List.length_append] at this
    simp at this

/-- Ten-row frame with durations 0..9 (positive variance, no z column). -/
def frameC9 : Frame :=
  { cols := ingestionCols,
    rows := (List.range 10).map (fun i =>
      { employee_id := "M", date := (i : Int),
        entry_time := some { day := (i : Int),
                             tod := { hour := 9, minute := 0 } },
        duration := (i : ℚ), status := "PRESENT" }) }

theorem anomalies_frame_effect_witness :
    ¬ DetectorSkips frameC9 ∧ 0 < sampleVar frameC9 ∧
    "z" ∉ frameC9.cols ∧
    (detect_attendance_anomalies frameC9).2 ≠ frameC9 := by
  have h1 : ¬ DetectorSkips frameC9 := by decide
  have h2 : 0 < sampleVar frameC9 := by with_unfolding_all decide
  have h3 : "z" ∉ frameC9.cols := by decide
  exact ⟨h1, h2, h3, (anomalies_frame_effect frameC9).2.2.2.2 h1 h2 h3⟩

/-- C9 counterexample: on a concrete 10-row table the frame after the
call differs from the frame before it (a `z` column was added), refuting
"no side effects on its argument". -/
theorem anomalies_mutates_input :
    (detect_attendance_anomalies frameC9).2 ≠ frameC9 := by
  with_unfolding_all decide

/-- C7.  The leave-abuse detector returns the empty list when the join of
approved leave requests with active users is empty; otherwise it flags
exactly the departments (of that join) whose per-employee average —
department leave-day total divided by active headcount with a denominator
floor of 1, never a division by zero — strictly exceeds 1.5 times the
organization average, reporting the department, its rounded average and
the rounded organization average. -/
theorem leave_abuse_flags_exactly (db : DB) :
    (approvedActiveLeaves db = [] →
      detect_department_leave_abuse db = []) ∧
    (∀ dept, (∃ rec ∈ detect_department_leave_abuse db,
        rec.department = dept) ↔
      (dept ∈ (approvedActiveLeaves db).map (fun p => p.1) ∧
        org_avg db * (3/2) < dept_avg db dept)) ∧
    (∀ rec ∈ detect_department_leave_abuse db,
      rec = { department := rec.department,
              avg_leave := round2 (dept_avg db rec.department),
              org_avg := round2 (org_avg db) }) ∧
    (∀ dept, dept_avg db dept =
      (dept_leave db dept : ℚ) / ((max 1 (emp_count db dept) : ℕ) : ℚ)) := by
  refine ⟨?_, ?_, ?_, ?_⟩
  · intro h
    unfold detect_department_leave_abuse
    rw [if_pos (by rw [h]; rfl)]
  · intro dept
    constructor
    · rintro ⟨rec, hrec, hdept⟩
      unfold detect_department_leave_abuse at hrec
      by_cases he : (approvedActiveLeaves db).isEmpty = true
      · rw [if_pos he] at hrec
        cases hrec
      · rw [if_neg he] at hrec
        obtain ⟨d', hd', hf⟩ := List.mem_filterMap.mp hrec
        by_cases hc : org_avg db * (3/2) < dept_avg db d'
        · rw [if_pos hc] at hf
          injection hf with hf
          have hdd : rec.department = d' := by rw [← hf]
          rw [hdd] at hdept
          subst hdept
          exact ⟨List.mem_dedup.mp hd', hc⟩
        · rw [if_neg hc] at hf
          cases hf
    · rintro ⟨hmem, hc⟩
      have hne : approvedActiveLeaves db ≠ [] := by
        intro h0
        rw [h0] at hmem
        cases hmem
      unfold detect_department_leave_abuse
      rw [if_neg (fun c => hne (List.isEmpty_iff.mp c))]
      refine ⟨{ department := dept, avg_leave := round2 (dept_avg db dept),
                org_avg := round2 (org_avg db) }, ?_, rfl⟩
      exact List.mem_filterMap.mpr
        ⟨dept, List.mem_dedup.mpr hmem, by rw [if_pos hc]⟩
  · intro rec hrec
    unfold detect_department_leave_abuse at hrec
    by_cases he : (approvedActiveLeaves db).isEmpty = true
    · rw [if_pos he] at hrec
      cases hrec
    · rw [if_neg he] at hrec
      obtain ⟨d', _, hf⟩ := List.mem_filterMap.mp hrec
      by_cases hc : org_avg db * (3/2) < dept_avg db d'
      · rw [if_pos hc] at hf
        injection hf with hf
        rw [← hf]
      · rw [if_neg hc] at hf
        cases hf
  · intro dept
    unfold dept_avg
    have hmax : (if emp_count db dept = 0 then 1 else emp_count db dept) =
        max 1 (emp_count db dept) := by
      by_cases h0 : emp_count db dept = 0
      · rw [if_pos h0, h0]
        decide
      · rw [if_neg h0, Nat.max_eq_right (by omega)]
    rw [hmax]

/-- Empty store. -/
def dbEmpty : DB :=
  { users := [], attendance := [], attendance_daily := [],
    leave_requests := [], holidays := [] }

/-- Store for the C7 witness: Sales has 1 active employee with a 10-day
approved leave; Eng has 2 active employees and no leave. -/
def dbC7 : DB :=
  { users := [ { id := 1, employee_id := "E1", name := "A", department := "Sales", is_active := true },
               { id := 2, employee_id := "E2", name := "B", department := "Eng", is_active := true },
               { id := 3, employee_id := "E3", name := "C", department := "Eng", is_active := true } ],
    attendance := [], attendance_daily := [],
    leave_requests := [ { employee_id := "E1", status := "Approved",
                          start_date := 0, end_date := 9 } ],
    holidays := [] }

theorem leave_abuse_flags_exactly_witness :
    detect_department_leave_abuse dbEmpty = [] ∧
    (∃ rec ∈ detect_department_leave_abuse dbC7,
      rec.department = "Sales") := by
  refine ⟨(leave_abuse_flags_exactly dbEmpty).1 rfl, ?_⟩
  exact ((leave_abuse_flags_exactly dbC7).2.1 "Sales").mpr
    ⟨by decide, by with_unfolding_all decide⟩

lemma compute_mkFrame_ok (data : List Row) (db' : Option DB)
    (e' : Option String) :
    ∃ m, compute_behavior_metrics (mkFrame data) db' e' = .ok m := by
  unfold mkFrame compute_behavior_metrics
  dsimp only
  by_cases h : data.isEmpty = true
  · rw [if_pos h]
    exact ⟨defaultMetrics, rfl⟩
  · rw [if_neg h, if_neg h, if_neg (by decide), if_neg (by decide),
      if_neg (by decide)]
    exact ⟨_, rfl⟩

lemma compute_get_ok (db : DB) (today : Int) (eid : Option String)
    (db' : Option DB) (e' : Option String) :
    ∃ m, compute_behavior_metrics (get_attendance_dataframe db today eid)
      db' e' = .ok m := by
  unfold get_attendance_dataframe
  exact compute_mkFrame_ok _ db' e'

/-- The metrics the risk predictor reads for an employee (total: the
extractor's frame is always empty or fully-columned, so the metrics
computation never raises there). -/
def metricsFor (db : DB) (today : Int) (e : String) : Metrics :=
  match compute_behavior_metrics (get_attendance_dataframe db today (some e))
      (some db) (some e) with
  | .ok m => m
  | .error _ => defaultMetrics

lemma compute_get_eq (db : DB) (today : Int) (e : String) :
    compute_behavior_metrics (get_attendance_dataframe db today (some e))
      (some db) (some e) = .ok (metricsFor db today e) := by
  obtain ⟨m, hm⟩ := compute_get_ok db today (some e) (some db) (some e)
  unfold metricsFor
  rw [hm]

/-- Count of raw ABSENT facts dated on or after `today - 90` (the code's
lower-bound-only window). -/
def recentAbsences (db : DB) (today : Int) (e : String) : ℕ :=
  db.attendance.countP (fun a =>
    a.employee_id == e && a.status == "ABSENT" &&
      decide (today - 90 ≤ a.date))

/-- C8 (amended).  The risk predictor returns `risk_score` equal to twice
the count of raw ABSENT facts dated on or after `today - 90` (no upper
bound: a future-dated ABSENT fact counts too — see the counterexample
theorem), plus 10 exactly when the 180-day-window attendance score is
below 70; the risk is high at score ≥ 20, medium at 10..19, low below 10.
In particular 2 recent absences with attendance score 65 give
`risk_score = 14` and risk "medium". -/
theorem risk_score_formula (db : DB) (today : Int) (e : String) :
    ∀ r, predict_absenteeism_risk db today e = .ok r →
      (r.risk_score = (recentAbsences db today e : Int) * 2 +
        (if (metricsFor db today e).attendance_score < 70 then 10 else 0)) ∧
      (20 ≤ r.risk_score → r.risk = "high") ∧
      (10 ≤ r.risk_score → r.risk_score < 20 → r.risk = "medium") ∧
      (r.risk_score < 10 → r.risk = "low") ∧
      (recentAbsences db today e = 2 →
        (metricsFor db today e).attendance_score = 65 →
        r.risk_score = 14 ∧ r.risk = "medium") := by
  intro r hr
  unfold predict_absenteeism_risk at hr
  dsimp only at hr
  rw [compute_get_eq db today e] at hr
  dsimp only [Except.map] at hr
  injection hr with hr
  subst hr
  dsimp only
  have hcnt : ((db.attendance.filter (fun a =>
      a.employee_id == e && a.status == "ABSENT" &&
        decide (today - 90 ≤ a.date))).length : Int) =
      (recentAbsences db today e : Int) := by
    unfold recentAbsences
    rw [List.countP_eq_length_filter]
  rw [hcnt]
  refine ⟨rfl, ?_, ?_, ?_, ?_⟩
  · intro h
    rw [if_pos h]
  · intro h1 h2
    rw [if_neg (by omega), if_pos h1]
  · intro h
    rw [if_neg (by omega), if_neg (by omega)]
  · intro hrec hsc
    rw [hrec, hsc]
    norm_num

/-- Store for the C8 witness: employee E8 has 2 recent and 3 old ABSENT
facts (all with entry timestamps so they reach the frame), one PRESENT
day, and a 5-day approved leave, giving attendance score 65. -/
def dbC8w : DB :=
  { users := [],
    attendance :=
      [ { id := 1, employee_id := "E8", date := 150,
          entry_time := some { day := 150, tod := { hour := 9, minute := 0 } },
          duration := some 0, status := "ABSENT" },
        { id := 2, employee_id := "E8", date := 160,
          entry_time := some { day := 160, tod := { hour := 9, minute := 0 } },
          duration := some 0, status := "ABSENT" },
        { id := 3, employee_id := "E8", date := 30,
          entry_time := some { day := 30, tod := { hour := 9, minute := 0 } },
          duration := some 0, status := "ABSENT" },
        { id := 4, employee_id := "E8", date := 40,
          entry_time := some { day := 40, tod := { hour := 9, minute := 0 } },
          duration := some 0, status := "ABSENT" },
        { id := 5, employee_id := "E8", date := 50,
          entry_time := some { day := 50, tod := { hour := 9, minute := 0 } },
          duration := some 0, status := "ABSENT" },
        { id := 6, employee_id := "E8", date := 170,
          entry_time := some { day := 170, tod := { hour := 9, minute := 0 } },
          duration := some 8, status := "PRESENT" } ],
    attendance_daily := [],
    leave_requests := [ { employee_id := "E8", status := "Approved",
                          start_date := 100, end_date := 104 } ],
    holidays := [] }

theorem risk_score_formula_witness :
    predict_absenteeism_risk dbC8w 200 "E8" =
      .ok { employee_id := "E8", risk := "medium", risk_score := 14 } ∧
    recentAbsences dbC8w 200 "E8" = 2 ∧
    (metricsFor dbC8w 200 "E8").attendance_score = 65 ∧
    ({ employee_id := "E8", risk := "medium", risk_score := 14 } :
      RiskResult).risk_score = 14 := by
  have hp : predict_absenteeism_risk dbC8w 200 "E8" =
      .ok { employee_id := "E8", risk := "medium", risk_score := 14 } := by
    with_unfolding_all decide
  have h5 := (risk_score_formula dbC8w 200 "E8"
      { employee_id := "E8", risk := "medium", risk_score := 14 } hp).2.2.2.2
    (by with_unfolding_all decide) (by with_unfolding_all decide)
  exact ⟨hp, by with_unfolding_all decide, by with_unfolding_all decide, h5.1⟩

/-- Count of raw ABSENT facts inside the inclusive trailing window
`[today - 90, today]` (this definition follows the spec's words "within
the trailing 90 days", for comparison with the code's lower-bound-only
count). -/
def specRecentAbsences (db : DB) (today : Int) (e : String) : ℕ :=
  db.attendance.countP (fun a =>
    a.employee_id == e && a.status == "ABSENT" &&
      decide (today - 90 ≤ a.date) && decide (a.date ≤ today))

/-- Store holding one future-dated ABSENT fact for employee E9. -/
def dbC8c : DB :=
  { users := [],
    attendance := [ { id := 1, employee_id := "E9", date := 205,
                      entry_time := none, duration := none,
                      status := "ABSENT" } ],
    attendance_daily := [], leave_requests := [], holidays := [] }

/-- C8 counterexample: with today = 200, an ABSENT fact dated 205 lies
outside the trailing 90 days, yet the code counts it (its date filter has
no upper bound): the code reports `risk_score = 12` where the claimed
formula gives 2 * 0 + 10 = 10. -/
theorem risk_counts_future_absent :
    predict_absenteeism_risk dbC8c 200 "E9" =
      .ok { employee_id := "E9", risk := "medium", risk_score := 12 } ∧
    specRecentAbsences dbC8c 200 "E9" = 0 ∧
    ((specRecentAbsences dbC8c 200 "E9" : Int) * 2 + 10 ≠ 12) :=
  ⟨by with_unfolding_all decide, by decide, by decide⟩

end EMD
